import Mathlib

/-!
Verification development for the Sparkify data-lake ETL (`etl.py`).

The repository contains a single pipeline with two stages:

* `process_song_data` (etl.py lines 37-81): reads song-metadata records,
  projects and deduplicates them into the `songs` and `artists` dimension
  tables.
* `process_log_data` (etl.py lines 84-174): reads activity-log records,
  filters them to `page = 'NextSong'` events, projects and deduplicates the
  `users` table, decomposes the millisecond epoch timestamp `ts` into
  calendar attributes, builds the `time` table, and left-joins the decomposed
  records against the persisted `songs` table to produce the `songplays`
  fact table.

The embedding below models dataframes as Lean lists of records, Spark
`dropDuplicates()` as `List.dedup`, and the Spark timestamp functions
(`hour`, `dayofmonth`, `weekofyear`, `month`, `year`, `dayofweek`) by explicit
integer calendar arithmetic on the epoch-millisecond value.  A Spark
`TimestampType` value produced by `datetime.fromtimestamp(ts / 1000)`
(etl.py line 121) is represented losslessly by the underlying epoch
millisecond count `ts : Int` (the timestamp denotes `ts / 1000` seconds
since the epoch, with naive/no-timezone semantics, i.e. UTC).  Floating
point `duration`/`length` values are modelled as exact rationals, which is
faithful for the equality comparisons the join performs.
-/

/-! ## Data model -/

/-- Input song-metadata record (one JSON object of `song_data`). -/
structure SongRecord where
  song_id : String
  title : String
  artist_id : String
  artist_name : String
  artist_location : String
  artist_latitude : Option Rat
  artist_longitude : Option Rat
  year : Int
  duration : Rat
deriving DecidableEq

/-- Input activity-log record (one JSON object of `log_data`). -/
structure ActivityRecord where
  page : String
  ts : Int
  userId : String
  firstName : String
  lastName : String
  gender : String
  level : String
  song : String
  artist : String
  length : Rat
  sessionId : Int
  location : String
  userAgent : String
deriving DecidableEq

/-- Row of the `songs` dimension table (etl.py lines 56-59). -/
structure SongDim where
  song_id : String
  title : String
  artist_id : String
  artist_name : String
  year : Int
  duration : Rat
deriving DecidableEq

/-- Row of the `artists` dimension table (etl.py lines 69-75). -/
structure ArtistDim where
  artist_id : String
  name : String
  location : String
  latitude : Option Rat
  longitude : Option Rat
deriving DecidableEq

/-- Row of the `users` dimension table (etl.py lines 106-112). -/
structure UserDim where
  user_id : String
  first_name : String
  last_name : String
  gender : String
  level : String
deriving DecidableEq

/-- Row of the `time` dimension table (etl.py lines 133-136).
`start_time` is the epoch-millisecond value underlying the timestamp. -/
structure TimeDim where
  start_time : Int
  hour : Int
  day : Int
  week : Int
  month : Int
  year : Int
  weekday : Int
deriving DecidableEq

/-- Row of the `songplays` fact table (etl.py lines 158-167).
`song_id` and `artist_id` are `none` when the left join found no match. -/
structure SongPlayFact where
  start_time : Int
  user_id : String
  level : String
  song_id : Option String
  artist_id : Option String
  session_id : Int
  location : String
  user_agent : String
  year : Int
  month : Int
deriving DecidableEq

/-! ## Song dimension extractor (`process_song_data`, etl.py lines 37-81) -/

/-- Projection `select('song_id', 'title', 'artist_id', 'artist_name',
'year', 'duration')` (etl.py lines 56-58). -/
def songProj (r : SongRecord) : SongDim :=
  { song_id := r.song_id, title := r.title, artist_id := r.artist_id,
    artist_name := r.artist_name, year := r.year, duration := r.duration }

/-- The `songs` table: projection followed by `dropDuplicates()`
(etl.py lines 56-59). -/
def songs_table (songData : List SongRecord) : List SongDim :=
  (songData.map songProj).dedup

/-- Projection `selectExpr('artist_id', 'artist_name AS name',
'artist_location AS location', 'artist_latitude AS latitude',
'artist_longitude AS longitude')` (etl.py lines 69-74). -/
def artistProj (r : SongRecord) : ArtistDim :=
  { artist_id := r.artist_id, name := r.artist_name,
    location := r.artist_location, latitude := r.artist_latitude,
    longitude := r.artist_longitude }

/-- The `artists` table: projection followed by `dropDuplicates()`
(etl.py lines 69-75). -/
def artists_table (songData : List SongRecord) : List ArtistDim :=
  (songData.map artistProj).dedup

/-! ## Timestamp decomposition (etl.py lines 121-130)

The code builds `start_time = datetime.fromtimestamp(ts / 1000)` and then
applies the Spark SQL functions `hour`, `dayofmonth`, `weekofyear`, `month`,
`year`, `dayofweek` to it.  Below, `secOf` is the whole-second part of the
timestamp, `epochDay` the day number since 1970-01-01, and the civil
(Gregorian) date is recovered with the standard era-based algorithm; all
divisions are by positive constants, where Lean's integer `/` and `%` are
floor division and nonnegative remainder. -/

/-- Whole seconds since the epoch of the timestamp `ts / 1000`. -/
def secOf (ts : Int) : Int := ts / 1000

/-- Days since 1970-01-01 of the timestamp. -/
def epochDay (ts : Int) : Int := secOf ts / 86400

/-- Spark `hour`: hour of day of the timestamp. -/
def hourOf (ts : Int) : Int := secOf ts % 86400 / 3600

/-- Day index within the 400-year Gregorian era containing day `z`
(era day 0 is March 1 of a year divisible by 400). -/
def doeOf (z : Int) : Int := (z + 719468) % 146097

/-- Index of the 400-year era containing day `z`. -/
def eraOf (z : Int) : Int := (z + 719468) / 146097

/-- Year of the era (0..399, March-based) containing era day `doeOf z`. -/
def yoeOf (z : Int) : Int :=
  (doeOf z - doeOf z / 1460 + doeOf z / 36524 - doeOf z / 146096) / 365

/-- Day of the March-based year (0..365) of day `z`. -/
def doyOf (z : Int) : Int :=
  doeOf z - (365 * yoeOf z + yoeOf z / 4 - yoeOf z / 100)

/-- March-based month index (0 = March .. 11 = February) of day `z`. -/
def mpOf (z : Int) : Int := (5 * doyOf z + 2) / 153

/-- Civil day of month (1..31) of day `z`. -/
def civilDay (z : Int) : Int := doyOf z - (153 * mpOf z + 2) / 5 + 1

/-- Civil month (1..12) of day `z`. -/
def civilMonth (z : Int) : Int := mpOf z + (if mpOf z < 10 then 3 else -9)

/-- Civil year of day `z`. -/
def civilYear (z : Int) : Int :=
  yoeOf z + eraOf z * 400 + (if civilMonth z ≤ 2 then 1 else 0)

/-- Spark `year` of the timestamp. -/
def yearOf (ts : Int) : Int := civilYear (epochDay ts)

/-- Spark `month` of the timestamp. -/
def monthOf (ts : Int) : Int := civilMonth (epochDay ts)

/-- Spark `dayofmonth` of the timestamp. -/
def dayOf (ts : Int) : Int := civilDay (epochDay ts)

/-- Spark `dayofweek` of the timestamp: 1 = Sunday .. 7 = Saturday
(1970-01-01, epoch day 0, was a Thursday, value 5). -/
def dayofweek (ts : Int) : Int := (epochDay ts + 4) % 7 + 1

/-- Day number since 1970-01-01 of the civil date `(y, m, d)` (inverse of
the civil decomposition, used to locate January 1 for the ISO week). -/
def daysFromCivil (y m d : Int) : Int :=
  (y - (if m ≤ 2 then 1 else 0)) / 400 * 146097 +
    ((y - (if m ≤ 2 then 1 else 0)) - (y - (if m ≤ 2 then 1 else 0)) / 400 * 400) * 365 +
    ((y - (if m ≤ 2 then 1 else 0)) - (y - (if m ≤ 2 then 1 else 0)) / 400 * 400) / 4 -
    ((y - (if m ≤ 2 then 1 else 0)) - (y - (if m ≤ 2 then 1 else 0)) / 400 * 400) / 100 +
    (153 * (m + (if m > 2 then -3 else 9)) + 2) / 5 + d - 1 - 719468

/-- ISO weekday of the timestamp: 1 = Monday .. 7 = Sunday. -/
def isoWeekday (ts : Int) : Int := (epochDay ts + 3) % 7 + 1

/-- Ordinal day of the (January-based) year of the timestamp. -/
def ordinalDay (ts : Int) : Int := epochDay ts - daysFromCivil (yearOf ts) 1 1 + 1

/-- Whether the ISO year `y` has 53 weeks (January 1 is a Thursday, or
December 31 is a Thursday, expressed via the standard weekday formula). -/
def isLongIsoYear (y : Int) : Bool :=
  (y + y / 4 - y / 100 + y / 400) % 7 == 4 ||
    ((y - 1) + (y - 1) / 4 - (y - 1) / 100 + (y - 1) / 400) % 7 == 3

/-- Number of ISO weeks (52 or 53) in ISO year `y`. -/
def weeksInIsoYear (y : Int) : Int := if isLongIsoYear y then 53 else 52

/-- Spark `weekofyear`: ISO-8601 week number of the timestamp. -/
def weekofyear (ts : Int) : Int :=
  if (10 + ordinalDay ts - isoWeekday ts) / 7 < 1 then
    weeksInIsoYear (yearOf ts - 1)
  else if weeksInIsoYear (yearOf ts) < (10 + ordinalDay ts - isoWeekday ts) / 7 then
    1
  else
    (10 + ordinalDay ts - isoWeekday ts) / 7

/-! ## Activity log extractor (`process_log_data`, etl.py lines 84-143) -/

/-- Filter `where("page = 'NextSong'")` (etl.py line 103). -/
def filterNextSong (logs : List ActivityRecord) : List ActivityRecord :=
  logs.filter fun r => decide (r.page = "NextSong")

/-- Projection `selectExpr('userId AS user_id', 'firstName AS first_name',
'lastName AS last_name', 'gender', 'level')` (etl.py lines 106-111). -/
def userProj (r : ActivityRecord) : UserDim :=
  { user_id := r.userId, first_name := r.firstName, last_name := r.lastName,
    gender := r.gender, level := r.level }

/-- The `users` table: filter, project, `dropDuplicates()`
(etl.py lines 103-112). -/
def users_table (logs : List ActivityRecord) : List UserDim :=
  ((filterNextSong logs).map userProj).dedup

/-- A filtered activity record with the columns added by the `withColumn`
chain of etl.py lines 123-130: `start_time` plus the six calendar parts. -/
structure DecomposedRecord where
  base : ActivityRecord
  start_time : Int
  hour : Int
  day : Int
  week : Int
  month : Int
  year : Int
  weekday : Int
deriving DecidableEq

/-- The `withColumn` chain of etl.py lines 121-130: attach `start_time`
(the timestamp of `ts / 1000` seconds, kept as epoch milliseconds) and the
six Spark calendar functions of it. -/
def decompose (a : ActivityRecord) : DecomposedRecord :=
  { base := a, start_time := a.ts, hour := hourOf a.ts, day := dayOf a.ts,
    week := weekofyear a.ts, month := monthOf a.ts, year := yearOf a.ts,
    weekday := dayofweek a.ts }

/-- Projection `select("start_time", "hour", "day", "week", "month",
"year", "weekday")` (etl.py lines 133-135). -/
def timeProj (d : DecomposedRecord) : TimeDim :=
  { start_time := d.start_time, hour := d.hour, day := d.day, week := d.week,
    month := d.month, year := d.year, weekday := d.weekday }

/-- The `time` table: filter, decompose, project, `dropDuplicates()`
(etl.py lines 103 and 121-136). -/
def time_table (logs : List ActivityRecord) : List TimeDim :=
  (((filterNextSong logs).map decompose).map timeProj).dedup

/-! ## Play-event resolver (`process_log_data`, etl.py lines 145-167) -/

/-- Join predicate of etl.py lines 154-156:
`df.song == song.title AND df.artist == song.artist_name AND
df.length == song.duration`. -/
def songPred (d : DecomposedRecord) (s : SongDim) : Bool :=
  decide (d.base.song = s.title ∧ d.base.artist = s.artist_name ∧
    d.base.length = s.duration)

/-- Matches contributed by one activity row under the `"left"` (left outer)
join of etl.py lines 152-157: every matching song row, or a single `none`
when there is no match. -/
def leftJoinMatches (d : DecomposedRecord) (songs : List SongDim) :
    List (Option SongDim) :=
  match songs.filter (songPred d) with
  | [] => [none]
  | ms => ms.map some

/-- Output projection of etl.py lines 158-167 applied to one joined row. -/
def factRow (d : DecomposedRecord) (s : Option SongDim) : SongPlayFact :=
  { start_time := d.start_time, user_id := d.base.userId,
    level := d.base.level, song_id := s.map SongDim.song_id,
    artist_id := s.map SongDim.artist_id, session_id := d.base.sessionId,
    location := d.base.location, user_agent := d.base.userAgent,
    year := d.year, month := d.month }

/-- The `songplays` table: filtered and decomposed activity records
left-joined against the `songs` table (etl.py lines 103, 121-130 and
145-167). -/
def songplays_table (logs : List ActivityRecord) (songs : List SongDim) :
    List SongPlayFact :=
  ((filterNextSong logs).map decompose).flatMap
    fun d => (leftJoinMatches d songs).map (factRow d)

/-- End-to-end run of `main` (etl.py lines 177-186) restricted to the fact
table: `process_song_data` persists `songs`, `process_log_data` re-reads it
(etl.py line 146) and joins. -/
def etlSongplays (songData : List SongRecord) (logs : List ActivityRecord) :
    List SongPlayFact :=
  songplays_table logs (songs_table songData)

/-! ## Bounds for the calendar decomposition -/

theorem doeOf_nonneg (z : Int) : 0 ≤ doeOf z := by
  unfold doeOf
  omega

theorem doeOf_le (z : Int) : doeOf z ≤ 146096 := by
  unfold doeOf
  omega

set_option maxHeartbeats 1600000 in
/-- Key bound for the era-based civil-date algorithm: for any day index `a`
within a 400-year era, the day-of-year offset left after subtracting the
computed year start lies in [0, 365]. -/
theorem era_doy_bound (a : Int) (h1 : 0 ≤ a) (h2 : a ≤ 146096) :
    0 ≤ a - (365 * ((a - a / 1460 + a / 36524 - a / 146096) / 365) +
      ((a - a / 1460 + a / 36524 - a / 146096) / 365) / 4 -
      ((a - a / 1460 + a / 36524 - a / 146096) / 365) / 100) ∧
    a - (365 * ((a - a / 1460 + a / 36524 - a / 146096) / 365) +
      ((a - a / 1460 + a / 36524 - a / 146096) / 365) / 4 -
      ((a - a / 1460 + a / 36524 - a / 146096) / 365) / 100) ≤ 365 := by
  obtain ⟨e, hea, heb, hec⟩ : ∃ e : Int, a / 1460 = e ∧ 0 ≤ e ∧ e ≤ 100 :=
    ⟨a / 1460, rfl, by omega, by omega⟩
  rw [hea]
  interval_cases e <;>
    first
      | omega
      | (obtain ⟨g, hga, hgb, hgc⟩ : ∃ g : Int, a / 36524 = g ∧ 0 ≤ g ∧ g ≤ 4 :=
          ⟨a / 36524, rfl, by omega, by omega⟩
         rw [hga]
         interval_cases g <;> omega)

theorem doyOf_bounds (z : Int) : 0 ≤ doyOf z ∧ doyOf z ≤ 365 := by
  have h := era_doy_bound (doeOf z) (doeOf_nonneg z) (doeOf_le z)
  unfold doyOf yoeOf
  exact h

theorem civilDay_bounds (z : Int) : 1 ≤ civilDay z ∧ civilDay z ≤ 31 := by
  have h := doyOf_bounds z
  unfold civilDay mpOf
  omega

theorem mpOf_bounds (z : Int) : 0 ≤ mpOf z ∧ mpOf z ≤ 11 := by
  have h := doyOf_bounds z
  unfold mpOf
  omega

theorem civilMonth_bounds (z : Int) : 1 ≤ civilMonth z ∧ civilMonth z ≤ 12 := by
  have h := mpOf_bounds z
  unfold civilMonth
  split <;> omega

theorem hourOf_bounds (ts : Int) : 0 ≤ hourOf ts ∧ hourOf ts ≤ 23 := by
  unfold hourOf secOf
  omega

theorem dayofweek_bounds (ts : Int) : 1 ≤ dayofweek ts ∧ dayofweek ts ≤ 7 := by
  unfold dayofweek
  omega

/-! ## Claim theorems -/

/-- C3: for every retained activity record the timestamp decomposition
converts the millisecond epoch `ts` by dividing by 1000 and interpreting it
as seconds since the epoch with no timezone applied, and derives from it an
hour in 0..23, a day of month in 1..31, the ISO week-of-year, a month in
1..12, the year and the weekday; the decomposition is a pure function of
`ts`, so two records with identical `ts` decompose to identical
(hour, day, week, month, year, weekday). -/
theorem C3_timestamp_decomposition :
    (∀ a : ActivityRecord,
      (decompose a).start_time = a.ts ∧
      (decompose a).hour = a.ts / 1000 % 86400 / 3600 ∧
      0 ≤ (decompose a).hour ∧ (decompose a).hour ≤ 23 ∧
      1 ≤ (decompose a).day ∧ (decompose a).day ≤ 31 ∧
      (decompose a).week = weekofyear a.ts ∧
      1 ≤ (decompose a).month ∧ (decompose a).month ≤ 12 ∧
      (decompose a).year = yearOf a.ts ∧
      (decompose a).weekday = dayofweek a.ts) ∧
    (∀ a b : ActivityRecord, a.ts = b.ts →
      ((decompose a).hour, (decompose a).day, (decompose a).week,
        (decompose a).month, (decompose a).year, (decompose a).weekday) =
      ((decompose b).hour, (decompose b).day, (decompose b).week,
        (decompose b).month, (decompose b).year, (decompose b).weekday)) := by
  constructor
  · intro a
    have h1 := hourOf_bounds a.ts
    have h2 := civilDay_bounds (epochDay a.ts)
    have h3 := civilMonth_bounds (epochDay a.ts)
    exact ⟨rfl, rfl, h1.1, h1.2, h2.1, h2.2, rfl, h3.1, h3.2, rfl, rfl⟩
  · intro a b h
    simp only [decompose, h]

/-- Witness for C3: two concrete records that share `ts = 1541121934796`
but differ in every other field decompose to the same six calendar values,
namely the decode of 1541121934.796 seconds: 2018-11-02, hour 1, a Friday
(weekday 6) of ISO week 44. -/
theorem C3_witness :
    ((decompose
        { page := "NextSong", ts := 1541121934796, userId := "26",
          firstName := "Ryan", lastName := "Smith", gender := "M",
          level := "free", song := "Setanta matins", artist := "Elena",
          length := 269.58338, sessionId := 583, location := "San Jose, CA",
          userAgent := "Mozilla/5.0" }).hour,
      (decompose
        { page := "NextSong", ts := 1541121934796, userId := "26",
          firstName := "Ryan", lastName := "Smith", gender := "M",
          level := "free", song := "Setanta matins", artist := "Elena",
          length := 269.58338, sessionId := 583, location := "San Jose, CA",
          userAgent := "Mozilla/5.0" }).day,
      (decompose
        { page := "NextSong", ts := 1541121934796, userId := "26",
          firstName := "Ryan", lastName := "Smith", gender := "M",
          level := "free", song := "Setanta matins", artist := "Elena",
          length := 269.58338, sessionId := 583, location := "San Jose, CA",
          userAgent := "Mozilla/5.0" }).week,
      (decompose
        { page := "NextSong", ts := 1541121934796, userId := "26",
          firstName := "Ryan", lastName := "Smith", gender := "M",
          level := "free", song := "Setanta matins", artist := "Elena",
          length := 269.58338, sessionId := 583, location := "San Jose, CA",
          userAgent := "Mozilla/5.0" }).month,
      (decompose
        { page := "NextSong", ts := 1541121934796, userId := "26",
          firstName := "Ryan", lastName := "Smith", gender := "M",
          level := "free", song := "Setanta matins", artist := "Elena",
          length := 269.58338, sessionId := 583, location := "San Jose, CA",
          userAgent := "Mozilla/5.0" }).year,
      (decompose
        { page := "NextSong", ts := 1541121934796, userId := "26",
          firstName := "Ryan", lastName := "Smith", gender := "M",
          level := "free", song := "Setanta matins", artist := "Elena",
          length := 269.58338, sessionId := 583, location := "San Jose, CA",
          userAgent := "Mozilla/5.0" }).weekday) =
    ((decompose
        { page := "NextSong", ts := 1541121934796, userId := "80",
          firstName := "Tegan", lastName := "Levine", gender := "F",
          level := "paid", song := "Greece 2000", artist := "Three Drives",
          length := 411.6371, sessionId := 992, location := "Portland, ME",
          userAgent := "Safari/537" }).hour,
      (decompose
        { page := "NextSong", ts := 1541121934796, userId := "80",
          firstName := "Tegan", lastName := "Levine", gender := "F",
          level := "paid", song := "Greece 2000", artist := "Three Drives",
          length := 411.6371, sessionId := 992, location := "Portland, ME",
          userAgent := "Safari/537" }).day,
      (decompose
        { page := "NextSong", ts := 1541121934796, userId := "80",
          firstName := "Tegan", lastName := "Levine", gender := "F",
          level := "paid", song := "Greece 2000", artist := "Three Drives",
          length := 411.6371, sessionId := 992, location := "Portland, ME",
          userAgent := "Safari/537" }).week,
      (decompose
        { page := "NextSong", ts := 1541121934796, userId := "80",
          firstName := "Tegan", lastName := "Levine", gender := "F",
          level := "paid", song := "Greece 2000", artist := "Three Drives",
          length := 411.6371, sessionId := 992, location := "Portland, ME",
          userAgent := "Safari/537" }).month,
      (decompose
        { page := "NextSong", ts := 1541121934796, userId := "80",
          firstName := "Tegan", lastName := "Levine", gender := "F",
          level := "paid", song := "Greece 2000", artist := "Three Drives",
          length := 411.6371, sessionId := 992, location := "Portland, ME",
          userAgent := "Safari/537" }).year,
      (decompose
        { page := "NextSong", ts := 1541121934796, userId := "80",
          firstName := "Tegan", lastName := "Levine", gender := "F",
          level := "paid", song := "Greece 2000", artist := "Three Drives",
          length := 411.6371, sessionId := 992, location := "Portland, ME",
          userAgent := "Safari/537" }).weekday) ∧
    ((decompose
        { page := "NextSong", ts := 1541121934796, userId := "26",
          firstName := "Ryan", lastName := "Smith", gender := "M",
          level := "free", song := "Setanta matins", artist := "Elena",
          length := 269.58338, sessionId := 583, location := "San Jose, CA",
          userAgent := "Mozilla/5.0" }).hour,
      (decompose
        { page := "NextSong", ts := 1541121934796, userId := "26",
          firstName := "Ryan", lastName := "Smith", gender := "M",
          level := "free", song := "Setanta matins", artist := "Elena",
          length := 269.58338, sessionId := 583, location := "San Jose, CA",
          userAgent := "Mozilla/5.0" }).day,
      (decompose
        { page := "NextSong", ts := 1541121934796, userId := "26",
          firstName := "Ryan", lastName := "Smith", gender := "M",
          level := "free", song := "Setanta matins", artist := "Elena",
          length := 269.58338, sessionId := 583, location := "San Jose, CA",
          userAgent := "Mozilla/5.0" }).week,
      (decompose
        { page := "NextSong", ts := 1541121934796, userId := "26",
          firstName := "Ryan", lastName := "Smith", gender := "M",
          level := "free", song := "Setanta matins", artist := "Elena",
          length := 269.58338, sessionId := 583, location := "San Jose, CA",
          userAgent := "Mozilla/5.0" }).month,
      (decompose
        { page := "NextSong", ts := 1541121934796, userId := "26",
          firstName := "Ryan", lastName := "Smith", gender := "M",
          level := "free", song := "Setanta matins", artist := "Elena",
          length := 269.58338, sessionId := 583, location := "San Jose, CA",
          userAgent := "Mozilla/5.0" }).year,
      (decompose
        { page := "NextSong", ts := 1541121934796, userId := "26",
          firstName := "Ryan", lastName := "Smith", gender := "M",
          level := "free", song := "Setanta matins", artist := "Elena",
          length := 269.58338, sessionId := 583, location := "San Jose, CA",
          userAgent := "Mozilla/5.0" }).weekday) =
      (1, 2, 44, 11, 2018, 6) :=
  ⟨C3_timestamp_decomposition.2 _ _ rfl, by decide⟩

/-- C10: the weekday value written to `TimeDim` (and present on every
decomposed record feeding the fact table) follows the Spark `dayofweek`
convention: an integer in 1..7 that advances cyclically by one per day,
with 1 = Sunday (1541289600000 ms is 2018-11-04 00:00 UTC, a Sunday) and
7 = Saturday (1541203200000 ms is 2018-11-03, a Saturday). -/
theorem C10_weekday_convention :
    (∀ a : ActivityRecord,
      (decompose a).weekday = dayofweek a.ts ∧
      (timeProj (decompose a)).weekday = dayofweek a.ts ∧
      1 ≤ dayofweek a.ts ∧ dayofweek a.ts ≤ 7) ∧
    (∀ ts : Int, dayofweek (ts + 86400000) = dayofweek ts % 7 + 1) ∧
    dayofweek 1541289600000 = 1 ∧ dayofweek 1541203200000 = 7 := by
  refine ⟨fun a => ⟨rfl, rfl, (dayofweek_bounds a.ts).1, (dayofweek_bounds a.ts).2⟩,
    fun ts => ?_, by decide, by decide⟩
  unfold dayofweek epochDay secOf
  omega

/-- C6: for all inputs the `songs` and `artists` tables contain no two equal
rows, and the deduplication is idempotent: applying the dedup step to the
already-deduplicated output is a no-op (reapplying the extraction projects
rows that are already in projected shape, so the projection is the identity
and only the dedup acts). -/
theorem C6_dedup_idempotent (songData : List SongRecord) :
    (songs_table songData).Nodup ∧ (artists_table songData).Nodup ∧
    (songs_table songData).map id = songs_table songData ∧
    (songs_table songData).dedup = songs_table songData ∧
    (artists_table songData).dedup = artists_table songData :=
  ⟨List.nodup_dedup _, List.nodup_dedup _, List.map_id _,
    List.dedup_eq_self.mpr (List.nodup_dedup _),
    List.dedup_eq_self.mpr (List.nodup_dedup _)⟩

/-- C5: an activity record whose `page` is not `"NextSong"` contributes to
none of the three outputs: inserting such a record anywhere in the input
leaves `users`, `time` and `songplays` unchanged, because all three are
computed from the filtered set of etl.py line 103. -/
theorem C5_filter_provenance (l1 l2 : List ActivityRecord) (r : ActivityRecord)
    (h : r.page ≠ "NextSong") (songs : List SongDim) :
    users_table (l1 ++ r :: l2) = users_table (l1 ++ l2) ∧
    time_table (l1 ++ r :: l2) = time_table (l1 ++ l2) ∧
    songplays_table (l1 ++ r :: l2) songs = songplays_table (l1 ++ l2) songs := by
  have hf : filterNextSong (l1 ++ r :: l2) = filterNextSong (l1 ++ l2) := by
    unfold filterNextSong
    simp [List.filter_append, List.filter_cons, h]
  refine ⟨?_, ?_, ?_⟩
  · unfold users_table
    rw [hf]
  · unfold time_table
    rw [hf]
  · unfold songplays_table
    rw [hf]

/-- Witness for C5: a concrete record with `page = "Home"` inserted into an
empty input changes none of the three outputs. -/
theorem C5_witness :
    users_table
        [{ page := "Home", ts := 1541121934796, userId := "26",
           firstName := "Ryan", lastName := "Smith", gender := "M",
           level := "free", song := "", artist := "", length := 0,
           sessionId := 583, location := "San Jose, CA",
           userAgent := "Mozilla/5.0" }] =
      users_table [] ∧
    time_table
        [{ page := "Home", ts := 1541121934796, userId := "26",
           firstName := "Ryan", lastName := "Smith", gender := "M",
           level := "free", song := "", artist := "", length := 0,
           sessionId := 583, location := "San Jose, CA",
           userAgent := "Mozilla/5.0" }] =
      time_table [] ∧
    songplays_table
        [{ page := "Home", ts := 1541121934796, userId := "26",
           firstName := "Ryan", lastName := "Smith", gender := "M",
           level := "free", song := "", artist := "", length := 0,
           sessionId := 583, location := "San Jose, CA",
           userAgent := "Mozilla/5.0" }] [] =
      songplays_table [] [] :=
  C5_filter_provenance [] []
    { page := "Home", ts := 1541121934796, userId := "26",
      firstName := "Ryan", lastName := "Smith", gender := "M",
      level := "free", song := "", artist := "", length := 0,
      sessionId := 583, location := "San Jose, CA",
      userAgent := "Mozilla/5.0" }
    (by decide) []

/-! ## Sample data for concrete witnesses

The activity record is the scenario record of the spec
(`ts = 1541121934796`, song "Setanta matins" by "Elena", length
269.58338); the second record is the same user after a level change. -/

/-- Scenario activity record: user "26" on the free tier. -/
def sampleLogFree : ActivityRecord :=
  { page := "NextSong", ts := 1541121934796, userId := "26",
    firstName := "Ryan", lastName := "Smith", gender := "M",
    level := "free", song := "Setanta matins", artist := "Elena",
    length := 269.58338, sessionId := 583, location := "San Jose, CA",
    userAgent := "Mozilla/5.0" }

/-- Same user as `sampleLogFree`, later event, level now "paid". -/
def sampleLogPaid : ActivityRecord :=
  { page := "NextSong", ts := 1541122241796, userId := "26",
    firstName := "Ryan", lastName := "Smith", gender := "M",
    level := "paid", song := "Greece 2000", artist := "Three Drives",
    length := 411.6371, sessionId := 584, location := "San Jose, CA",
    userAgent := "Mozilla/5.0" }

/-- Song row that matches `sampleLogFree` on (title, artist_name,
duration). -/
def sampleSongMatch : SongDim :=
  { song_id := "SOZCTXZ12AB0182364", title := "Setanta matins",
    artist_id := "AR5KOSW1187FB35FF4", artist_name := "Elena",
    year := 0, duration := 269.58338 }

/-- Song row whose title matches nothing in `sampleLogFree`. -/
def sampleSongOther : SongDim :=
  { song_id := "SOGREEC12AB0182365", title := "Greece 2000",
    artist_id := "ARTHREE1187FB35FF5", artist_name := "Three Drives",
    year := 1997, duration := 411.6371 }

/-- C9: two filtered activity records with the same `userId` but different
`level` values yield two distinct rows of the `users` table for that user id
(deduplication is by full-row equality, so a level change produces a second
row rather than an update), while the table never holds two identical rows
(fully identical projections collapse to one row). -/
theorem C9_users_level_change (logs : List ActivityRecord)
    (a b : ActivityRecord) (ha : a ∈ logs) (hb : b ∈ logs)
    (hpa : a.page = "NextSong") (hpb : b.page = "NextSong")
    (hu : a.userId = b.userId) (hl : a.level ≠ b.level) :
    userProj a ∈ users_table logs ∧ userProj b ∈ users_table logs ∧
    userProj a ≠ userProj b ∧
    (userProj a).user_id = (userProj b).user_id ∧
    (users_table logs).Nodup := by
  have mem : ∀ c : ActivityRecord, c ∈ logs → c.page = "NextSong" →
      userProj c ∈ users_table logs := by
    intro c hc hpc
    unfold users_table
    rw [List.mem_dedup]
    refine List.mem_map_of_mem _ ?_
    unfold filterNextSong
    rw [List.mem_filter]
    exact ⟨hc, by simp [hpc]⟩
  refine ⟨mem a ha hpa, mem b hb hpb, fun hEq => hl ?_, hu, List.nodup_dedup _⟩
  exact congrArg UserDim.level hEq

/-- Witness for C9: user "26" appears with level "free" and with level
"paid"; both projected rows are retained and the table has no duplicate
rows. -/
theorem C9_witness :
    userProj sampleLogFree ∈ users_table [sampleLogFree, sampleLogPaid] ∧
    userProj sampleLogPaid ∈ users_table [sampleLogFree, sampleLogPaid] ∧
    userProj sampleLogFree ≠ userProj sampleLogPaid ∧
    (userProj sampleLogFree).user_id = (userProj sampleLogPaid).user_id ∧
    (users_table [sampleLogFree, sampleLogPaid]).Nodup :=
  C9_users_level_change [sampleLogFree, sampleLogPaid]
    sampleLogFree sampleLogPaid (List.mem_cons_self _ _)
    (List.mem_cons_of_mem _ (List.mem_cons_self _ _)) rfl rfl rfl
    (by decide)

/-- C2: a filtered activity record for which no song row satisfies the join
predicate produces a fact row with `song_id = none` and `artist_id = none`
while every activity-side field (start_time, user_id, level, session_id,
location, user_agent, year, month) is populated from the record and its
timestamp decomposition. -/
theorem C2_no_match_null_ids (logs : List ActivityRecord)
    (songs : List SongDim) (a : ActivityRecord)
    (ha : a ∈ logs) (hp : a.page = "NextSong")
    (hnm : ∀ s ∈ songs, songPred (decompose a) s = false) :
    ({ start_time := a.ts, user_id := a.userId, level := a.level,
       song_id := none, artist_id := none, session_id := a.sessionId,
       location := a.location, user_agent := a.userAgent,
       year := yearOf a.ts, month := monthOf a.ts } : SongPlayFact) ∈
      songplays_table logs songs := by
  unfold songplays_table
  rw [List.mem_flatMap]
  refine ⟨decompose a, List.mem_map_of_mem _ ?_, ?_⟩
  · unfold filterNextSong
    rw [List.mem_filter]
    exact ⟨ha, by simp [hp]⟩
  · have hfil : songs.filter (songPred (decompose a)) = [] := by
      rw [List.filter_eq_nil_iff]
      intro s hs
      simp [hnm s hs]
    unfold leftJoinMatches
    rw [hfil]
    exact List.mem_singleton.mpr rfl

/-- Witness for C2: the scenario record with `ts = 1541121934796` joined
against a song table holding one non-matching row yields the fact row with
null `song_id` and `artist_id`; its `year` and `month` are 2018 and 11, and
the full decode of 1541121934.796 seconds is 2018-11-02, hour 1. -/
theorem C2_witness :
    ({ start_time := 1541121934796, user_id := "26", level := "free",
       song_id := none, artist_id := none, session_id := 583,
       location := "San Jose, CA", user_agent := "Mozilla/5.0",
       year := yearOf 1541121934796,
       month := monthOf 1541121934796 } : SongPlayFact) ∈
      songplays_table [sampleLogFree] [sampleSongOther] ∧
    yearOf 1541121934796 = 2018 ∧ monthOf 1541121934796 = 11 ∧
    dayOf 1541121934796 = 2 ∧ hourOf 1541121934796 = 1 :=
  ⟨C2_no_match_null_ids [sampleLogFree] [sampleSongOther] sampleLogFree
      (List.mem_cons_self _ _) rfl (by decide),
    by decide, by decide, by decide, by decide⟩

/-- C7: round-trip through the join: a filtered activity record whose
(song, artist, length) equal the (title, artist_name, duration) of a song
row present in the table yields a fact row whose `song_id` and `artist_id`
are non-null and equal to that song row's keys. -/
theorem C7_round_trip (logs : List ActivityRecord) (songs : List SongDim)
    (a : ActivityRecord) (s : SongDim) (ha : a ∈ logs)
    (hp : a.page = "NextSong") (hs : s ∈ songs)
    (hsong : a.song = s.title) (hart : a.artist = s.artist_name)
    (hlen : a.length = s.duration) :
    ({ start_time := a.ts, user_id := a.userId, level := a.level,
       song_id := some s.song_id, artist_id := some s.artist_id,
       session_id := a.sessionId, location := a.location,
       user_agent := a.userAgent, year := yearOf a.ts,
       month := monthOf a.ts } : SongPlayFact) ∈
      songplays_table logs songs := by
  unfold songplays_table
  rw [List.mem_flatMap]
  refine ⟨decompose a, List.mem_map_of_mem _ ?_, ?_⟩
  · unfold filterNextSong
    rw [List.mem_filter]
    exact ⟨ha, by simp [hp]⟩
  · have hmem : s ∈ songs.filter (songPred (decompose a)) := by
      rw [List.mem_filter]
      exact ⟨hs, by simp [songPred, decompose, hsong, hart, hlen]⟩
    have hjm : some s ∈ leftJoinMatches (decompose a) songs := by
      unfold leftJoinMatches
      cases hfe : songs.filter (songPred (decompose a)) with
      | nil =>
          rw [hfe] at hmem
          cases hmem
      | cons x xs =>
          rw [hfe] at hmem
          exact List.mem_map_of_mem some hmem
    exact List.mem_map_of_mem _ hjm

/-- Witness for C7: the scenario record matches the single song row on
(title, artist_name, duration) and the fact row carries that row's ids. -/
theorem C7_witness :
    ({ start_time := 1541121934796, user_id := "26", level := "free",
       song_id := some "SOZCTXZ12AB0182364",
       artist_id := some "AR5KOSW1187FB35FF4", session_id := 583,
       location := "San Jose, CA", user_agent := "Mozilla/5.0",
       year := yearOf 1541121934796,
       month := monthOf 1541121934796 } : SongPlayFact) ∈
      songplays_table [sampleLogFree] [sampleSongMatch] :=
  C7_round_trip [sampleLogFree] [sampleSongMatch] sampleLogFree
    sampleSongMatch (List.mem_cons_self _ _) rfl (List.mem_cons_self _ _)
    rfl rfl rfl

/-! ## Cardinality of the left join (claim C1) -/

/-- Song record with title "Duplicate Song"; one of two records that agree
on (title, artist_name, duration) but have different ids. -/
def dupSongA : SongRecord :=
  { song_id := "SOAAAAA12AB0180001", title := "Duplicate Song",
    artist_id := "ARDUPAR1187FB30001", artist_name := "Dup Artist",
    artist_location := "NY", artist_latitude := none,
    artist_longitude := none, year := 2000, duration := 200 }

/-- Second song record with the same (title, artist_name, duration) as
`dupSongA` but a different `song_id` and `year`, so its projected row is
distinct and survives the full-row dedup. -/
def dupSongB : SongRecord :=
  { song_id := "SOBBBBB12AB0180002", title := "Duplicate Song",
    artist_id := "ARDUPAR1187FB30001", artist_name := "Dup Artist",
    artist_location := "NY", artist_latitude := none,
    artist_longitude := none, year := 2001, duration := 200 }

/-- Activity record whose (song, artist, length) match both `dupSongA` and
`dupSongB`. -/
def dupMatchLog : ActivityRecord :=
  { page := "NextSong", ts := 1541121934796, userId := "44",
    firstName := "Aleena", lastName := "Kirby", gender := "F",
    level := "paid", song := "Duplicate Song", artist := "Dup Artist",
    length := 200, sessionId := 237, location := "Waterloo, IA",
    userAgent := "Chrome/36" }

/-- C1 as stated is false: the join is a left outer join, so a filtered
activity record that matches several `songs` rows yields one fact row per
match, not exactly one.  Two song records agreeing on (title, artist_name,
duration) but differing in song_id both survive the full-row dedup of
`process_song_data`; one activity record matching them produces a
`songplays` table with 2 rows from 1 filtered activity record. -/
theorem C1_counterexample :
    ¬ ((etlSongplays [dupSongA, dupSongB] [dupMatchLog]).length =
      (filterNextSong [dupMatchLog]).length) := by decide

theorem leftJoinMatches_length_pos (d : DecomposedRecord)
    (songs : List SongDim) : 1 ≤ (leftJoinMatches d songs).length := by
  unfold leftJoinMatches
  cases songs.filter (songPred d) with
  | nil => simp
  | cons x xs => simp

theorem leftJoinMatches_length_eq_one (d : DecomposedRecord)
    (songs : List SongDim)
    (h : (songs.filter (songPred d)).length ≤ 1) :
    (leftJoinMatches d songs).length = 1 := by
  unfold leftJoinMatches
  cases hfe : songs.filter (songPred d) with
  | nil => simp
  | cons x xs =>
      rw [hfe] at h
      simp only [List.length_cons, List.length_map] at h ⊢
      omega

theorem songplays_length_aux (songs : List SongDim)
    (ds : List DecomposedRecord) :
    ds.length ≤
      (ds.flatMap fun d => (leftJoinMatches d songs).map (factRow d)).length ∧
    ((∀ d ∈ ds, (songs.filter (songPred d)).length ≤ 1) →
      (ds.flatMap fun d =>
        (leftJoinMatches d songs).map (factRow d)).length = ds.length) := by
  induction ds with
  | nil => simp
  | cons d ds ih =>
      constructor
      · have h1 := leftJoinMatches_length_pos d songs
        have h2 := ih.1
        simp only [List.flatMap_cons, List.length_append, List.length_map,
          List.length_cons]
        omega
      · intro h
        have h1 := leftJoinMatches_length_eq_one d songs
          (h d (List.mem_cons_self _ _))
        have h2 := ih.2 fun x hx => h x (List.mem_cons_of_mem _ hx)
        simp only [List.flatMap_cons, List.length_append, List.length_map,
          List.length_cons] at h2 ⊢
        omega

/-- C1 amended: the left outer join never drops a filtered activity record
(the fact table has at least one row per filtered record), and the fact
table row count equals the filtered activity count exactly when every
filtered record matches at most one `songs` row on (title, artist_name,
duration); a record with several matches yields one fact row per match, so
in that case the fact table is strictly larger. -/
theorem C1_left_join_cardinality (logs : List ActivityRecord)
    (songs : List SongDim) :
    (filterNextSong logs).length ≤ (songplays_table logs songs).length ∧
    ((∀ a ∈ filterNextSong logs,
        (songs.filter (songPred (decompose a))).length ≤ 1) →
      (songplays_table logs songs).length = (filterNextSong logs).length) := by
  have h := songplays_length_aux songs ((filterNextSong logs).map decompose)
  unfold songplays_table
  constructor
  · have h1 := h.1
    rw [List.length_map] at h1
    exact h1
  · intro hh
    have hball : ∀ d ∈ (filterNextSong logs).map decompose,
        (songs.filter (songPred d)).length ≤ 1 := by
      intro d hd
      obtain ⟨a, haf, rfl⟩ := List.mem_map.mp hd
      exact hh a haf
    have h2 := h.2 hball
    rw [List.length_map] at h2
    exact h2

/-- Witness for the amended C1: with an empty song table every filtered
record matches at most one row, and the counts agree. -/
theorem C1_witness :
    (songplays_table [sampleLogFree] []).length =
      (filterNextSong [sampleLogFree]).length :=
  (C1_left_join_cardinality [sampleLogFree] []).2 (by decide)

/-! ## Key uniqueness in the songs table (claim C8) -/

/-- Song record with id "SODUPID12AB0180003" and title "Title One". -/
def dupIdSongA : SongRecord :=
  { song_id := "SODUPID12AB0180003", title := "Title One",
    artist_id := "ARSOMEA1187FB30002", artist_name := "Some Artist",
    artist_location := "LA", artist_latitude := none,
    artist_longitude := none, year := 1999, duration := 100 }

/-- Song record with the same `song_id` as `dupIdSongA` but a different
title. -/
def dupIdSongB : SongRecord :=
  { song_id := "SODUPID12AB0180003", title := "Title Two",
    artist_id := "ARSOMEA1187FB30002", artist_name := "Some Artist",
    artist_location := "LA", artist_latitude := none,
    artist_longitude := none, year := 1999, duration := 100 }

/-- C8 as stated is false: `dropDuplicates()` compares full rows, so two
song records with identical `song_id` but differing titles project to two
distinct rows and both are retained — the `songs` table holds two rows for
that `song_id`, not exactly one. -/
theorem C8_counterexample :
    ¬ ((songs_table [dupIdSongA, dupIdSongB]).countP
        (fun s => decide (s.song_id = "SODUPID12AB0180003")) = 1) := by decide

/-- C8 amended: two input song records with identical `song_id` but
differing titles (hence distinct projected rows) both survive
deduplication: the `songs` table retains two rows for that `song_id`
(song_id uniqueness is a documented constraint on the input, not enforced
by the full-row dedup). -/
theorem C8_same_id_two_rows (r1 r2 : SongRecord)
    (hid : r1.song_id = r2.song_id) (hne : songProj r1 ≠ songProj r2) :
    (songs_table [r1, r2]).countP
      (fun s => decide (s.song_id = r1.song_id)) = 2 := by
  unfold songs_table
  simp only [List.map_cons, List.map_nil]
  rw [List.dedup_cons_of_not_mem (by simpa using hne),
    List.dedup_cons_of_not_mem (List.not_mem_nil _), List.dedup_nil]
  have h1 : (songProj r1).song_id = r1.song_id := rfl
  have h2 : (songProj r2).song_id = r2.song_id := rfl
  simp [List.countP_cons, h1, h2, hid]

/-- Witness for the amended C8 on the two concrete records sharing id
"SODUPID12AB0180003". -/
theorem C8_witness :
    (songs_table [dupIdSongA, dupIdSongB]).countP
      (fun s => decide (s.song_id = dupIdSongA.song_id)) = 2 :=
  C8_same_id_two_rows dupIdSongA dupIdSongB rfl (by decide)

/-! ## Timestamp validation (claim C4) -/

/-- Activity record with a negative (pre-epoch) timestamp. -/
def negTsLog : ActivityRecord :=
  { page := "NextSong", ts := -1000, userId := "99", firstName := "Pre",
    lastName := "Epoch", gender := "F", level := "free",
    song := "Old Song", artist := "Old Artist", length := 100,
    sessionId := 7, location := "Nowhere, KS", userAgent := "Netscape/4" }

/-- C4 as stated is false on the code: `process_log_data` performs no
validation of `ts` at all — etl.py lines 121-130 convert it
unconditionally, and no `MalformedTimestampError` (nor any of the spec's
error taxonomy) exists anywhere in the repository.  A record with a
negative `ts` is processed normally instead of failing: it contributes its
decomposed pre-epoch row (1969-12-31) to the `time` table and one fact row
to `songplays`. -/
theorem C4_counterexample :
    negTsLog.ts < 0 ∧
    timeProj (decompose negTsLog) ∈ time_table [negTsLog] ∧
    (songplays_table [negTsLog] []).length = 1 ∧
    (decompose negTsLog).year = 1969 ∧ (decompose negTsLog).month = 12 ∧
    (decompose negTsLog).day = 31 := by decide

/-- C4 amended: the Activity Log Extractor validates nothing about `ts` and
signals no error for a negative value: every filtered record, regardless of
the sign of its `ts`, is decomposed and contributes its row to the `time`
table. -/
theorem C4_no_ts_validation (logs : List ActivityRecord)
    (a : ActivityRecord) (ha : a ∈ logs) (hp : a.page = "NextSong")
    (hneg : a.ts < 0) :
    timeProj (decompose a) ∈ time_table logs := by
  unfold time_table
  rw [List.mem_dedup]
  refine List.mem_map_of_mem _ (List.mem_map_of_mem _ ?_)
  unfold filterNextSong
  rw [List.mem_filter]
  exact ⟨ha, by simp [hp]⟩

/-- Witness for the amended C4 at the concrete pre-epoch record. -/
theorem C4_witness : timeProj (decompose negTsLog) ∈ time_table [negTsLog] :=
  C4_no_ts_validation [negTsLog] negTsLog (List.mem_cons_self _ _) rfl
    (by decide)
